import Mathlib

/-!
Shallow embedding of `poet-rust` (`src/lib.rs`), a Rust wrapper around the
native `libpoet` control-loop library (the `poet_sys` crate).

The Rust crate contains only the wrapper logic: the data-model structs, the
two default-state constructors, two table loaders that delegate to the native
`get_control_states` / `get_cpu_states`, and the `POET` struct with `new`,
`apply_control` and `Drop`, delegating to `poet_init`, `poet_apply_control`
and `poet_destroy`.

Modelling conventions:
- `f64` values carry no floating-point arithmetic in this crate; they are
  modelled as `Rat`.  `u32`/`u64` are modelled as `Nat`, with an explicit
  `% 2 ^ 32` where the source performs an `as u32` cast.
- Native functions are not part of this repository; they are modelled as
  explicit parameters (their observable interface) and each native call made
  by the wrapper is recorded in an explicit event trace, so that statements
  such as "the initializer is never invoked on a length mismatch" or
  "`poet_destroy` is called exactly once" are about the trace.
- Fallible Rust functions returning `Result<T, &'static str>` are modelled as
  `Except String T`, with the exact error strings of the source.
-/

namespace PoetRust

/-- The `poet_control_state_t` record of `poet_sys`: an identifier, a speedup
and a cost (both `f64` in the source, modelled as `Rat`). -/
structure poet_control_state_t where
  id : Nat
  speedup : Rat
  cost : Rat
deriving DecidableEq, Repr

/-- The `poet_cpu_state_t` record of `poet_sys`: an identifier, a frequency
and a core count. -/
structure poet_cpu_state_t where
  id : Nat
  freq : Nat
  cores : Nat
deriving DecidableEq, Repr

/-- Rust `default_poet_control_state_t` from `src/lib.rs` lines 26-32. -/
def default_poet_control_state_t : poet_control_state_t :=
  { id := 0, speedup := 1, cost := 1 }

/-- Rust `default_poet_cpu_state_t` from `src/lib.rs` lines 34-40. -/
def default_poet_cpu_state_t : poet_cpu_state_t :=
  { id := 0, freq := 0, cores := 0 }

/-- Observable outcome of one call to a native table loader
(`get_control_states` / `get_cpu_states`): the returned status code, and the
array it wrote through its out-pointer (`nstates` elements starting at the
written state pointer; `nstates` is the length of `arr`). -/
structure NativeLoadResult (σ : Type) where
  res : Int
  arr : List σ
deriving Repr

/-- Model of `ptr::copy_nonoverlapping(src, dst, n)` into a fresh vector of
capacity and (unsafely set) length `n`: the first `n` elements of the native
array. -/
def copy_nonoverlapping {σ : Type} (src : List σ) (n : Nat) : List σ :=
  src.take n

/-- Rust `poet_get_control_states` from `src/lib.rs` lines 43-64.  The native
loader is a parameter mapping the (optional) filename to its observable
outcome.  The second component counts the `libc::free` calls made on the
native allocation inside this function. -/
def poet_get_control_states
    (native : Option String → NativeLoadResult poet_control_state_t)
    (filename : Option String) :
    Except String (List poet_control_state_t) × Nat :=
  let r := native filename
  if r.res ≠ 0 then
    (.error "Failed to load control states", 0)
  else
    let nstates := r.arr.length
    (.ok (copy_nonoverlapping r.arr nstates), 1)

/-- Rust `poet_get_cpu_states` from `src/lib.rs` lines 67-88, modelled exactly as
`poet_get_control_states`. -/
def poet_get_cpu_states
    (native : Option String → NativeLoadResult poet_cpu_state_t)
    (filename : Option String) :
    Except String (List poet_cpu_state_t) × Nat :=
  let r := native filename
  if r.res ≠ 0 then
    (.error "Failed to load cpu states", 0)
  else
    let nstates := r.arr.length
    (.ok (copy_nonoverlapping r.arr nstates), 1)

/-- The `POET` struct of `src/lib.rs` lines 91-96: the native handle (a raw
`*mut poet_state`, modelled as a `Nat` identifier) and the two owned state
tables. -/
structure POET where
  poet : Nat
  control_states : List poet_control_state_t
  cpu_states : List poet_cpu_state_t
deriving DecidableEq, Repr

/-- The full argument list of one `poet_init` native call, as issued by
`POET::new` (`src/lib.rs` lines 124-130).  `A` and `C` are the (abstract)
types of apply- and current-state callback values; `num_states` is
`control_states.len() as u32`. -/
structure InitCall (A C : Type) where
  perf_goal : Rat
  num_states : Nat
  control_states : List poet_control_state_t
  cpu_states : List poet_cpu_state_t
  apply_func : A
  curr_state_func : C
  period : Nat
  buffer_depth : Nat
  log_ptr : Option String

/-- The native environment `POET::new` runs against: the two built-in wrapper
callbacks defined at `src/lib.rs` lines 9-24 (whose bodies delegate to the
native `apply_cpu_config` / `get_current_cpu_state`, so only their identity
is observable here), and the native `poet_init`, returning a non-null handle
on success and null (`none`) on failure. -/
structure InitEnv (A C : Type) where
  apply_cpu_config_wrapper : A
  get_current_cpu_state_wrapper : C
  poet_init : InitCall A C → Option Nat

/-- Rust `POET::new` from `src/lib.rs` lines 100-139.  Returns the
`Result<POET, &'static str>` together with the trace of `poet_init` calls
made (empty or a singleton). -/
def POET.new {A C : Type} (env : InitEnv A C)
    (perf_goal : Rat)
    (control_states : List poet_control_state_t)
    (cpu_states : List poet_cpu_state_t)
    (apply_func : Option A)
    (curr_state_func : Option C)
    (period : Nat)
    (buffer_depth : Nat)
    (log_filename : Option String) :
    Except String POET × List (InitCall A C) :=
  if control_states.length ≠ cpu_states.length then
    (.error "Number of control and cpu states don\x27t match", [])
  else
    let af : A :=
      match apply_func with
      | some p => p
      | none => env.apply_cpu_config_wrapper
    let cf : C :=
      match curr_state_func with
      | some p => p
      | none => env.get_current_cpu_state_wrapper
    let num_states := control_states.length % 2 ^ 32
    let call : InitCall A C :=
      { perf_goal := perf_goal, num_states := num_states,
        control_states := control_states, cpu_states := cpu_states,
        apply_func := af, curr_state_func := cf,
        period := period, buffer_depth := buffer_depth,
        log_ptr := log_filename }
    match env.poet_init call with
    | none => (.error "Failed to instantiate POET object", [call])
    | some h => (.ok ⟨h, control_states, cpu_states⟩, [call])

/-- Abbreviation for the exact `poet_init` argument record that `POET.new`
builds when the length check has passed: `num_states` is the `as u32` cast of
the table length, and the callbacks are the caller-supplied ones, defaulted
to the built-in wrappers. -/
def POET.mkInitCall {A C : Type} (env : InitEnv A C) (perf_goal : Rat)
    (control_states : List poet_control_state_t)
    (cpu_states : List poet_cpu_state_t)
    (apply_func : Option A) (curr_state_func : Option C)
    (period buffer_depth : Nat) (log_filename : Option String) :
    InitCall A C :=
  { perf_goal := perf_goal,
    num_states := control_states.length % 2 ^ 32,
    control_states := control_states, cpu_states := cpu_states,
    apply_func :=
      match apply_func with
      | some p => p
      | none => env.apply_cpu_config_wrapper,
    curr_state_func :=
      match curr_state_func with
      | some p => p
      | none => env.get_current_cpu_state_wrapper,
    period := period, buffer_depth := buffer_depth,
    log_ptr := log_filename }

/-- The argument list of one `poet_apply_control` native call, as issued by
`POET::apply_control` (`src/lib.rs` line 145). -/
structure ApplyControlCall where
  poet : Nat
  tag : Nat
  window_rate : Rat
  window_power : Rat
deriving DecidableEq, Repr

/-- Rust `POET::apply_control` from `src/lib.rs` lines 143-147: a single native
call on the stored handle; the Rust-side fields of `self` are not assigned.
Returns the (unchanged) receiver, the unit result, and the trace of native
calls. -/
def POET.apply_control (self : POET) (tag : Nat)
    (window_rate window_power : Rat) :
    POET × Unit × List ApplyControlCall :=
  (self, (), [⟨self.poet, tag, window_rate, window_power⟩])

/-- A whole sequence of `apply_control` calls, threading the receiver. -/
def POET.apply_control_seq (self : POET) (calls : List (Nat × Rat × Rat)) :
    POET :=
  calls.foldl (fun s c => (s.apply_control c.1 c.2.1 c.2.2).1) self

/-- The argument of one `poet_destroy` native call. -/
structure DestroyCall where
  poet : Nat
deriving DecidableEq, Repr

/-- Rust `Drop for POET` from `src/lib.rs` lines 150-157: a single
`poet_destroy(self.poet)` call; the return type `()` means no error can be
surfaced.  Returns the unit result and the trace of destroy calls. -/
def POET.drop (self : POET) : Unit × List DestroyCall :=
  ((), [⟨self.poet⟩])

/-- Modelled from the spec: the native `poet_init` of `libpoet` (a dependency,
not under `src/`).  Per spec §8 construction succeeds iff the tables have
equal positive length, `period ≥ 1` and `buffer_depth ≥ 1`; the Rust wrapper
checks length equality itself, so the native initializer is modelled as
succeeding (returning a fresh non-null handle, here `1`) iff
`num_states ≥ 1`, `period ≥ 1` and `buffer_depth ≥ 1`, and returning null
(`none`) otherwise. -/
def poet_init_spec {A C : Type} (call : InitCall A C) : Option Nat :=
  if 1 ≤ call.num_states ∧ 1 ≤ call.period ∧ 1 ≤ call.buffer_depth then
    some 1
  else
    none

/-- Modelled from the spec: the mutable state of the native `poet_state`
control loop (spec §3 and §4.3), which lives in `libpoet`, not under `src/`:
the table length `n`, the `current_state_index`, the bounded sample buffer
(newest first) and the call counter. -/
structure NativeLoopState where
  n : Nat
  idx : Nat
  buffer : List (Rat × Rat)
  count : Nat
deriving DecidableEq, Repr

/-- Modelled from the spec: pushing a sample into the bounded buffer (spec
§4.3 step 1) — once `buffer_depth` samples are present the oldest is
evicted. -/
def pushSample (buffer_depth : Nat) (buffer : List (Rat × Rat))
    (s : Rat × Rat) : List (Rat × Rat) :=
  (s :: buffer).take buffer_depth

/-- Modelled from the spec: arithmetic mean of the rates in the buffer (spec
§4.3 step 3). -/
def meanRate (buffer : List (Rat × Rat)) : Rat :=
  (buffer.map Prod.fst).sum / buffer.length

/-- Modelled from the spec: the single-step selection policy of §4.3 step 4 —
advance one entry when the mean rate is below the goal and a higher state
exists, retreat one entry when it exceeds the goal with hysteresis slack
`margin` and a lower state exists, otherwise keep the index. -/
def next_state_index (perf_goal margin : Rat) (n idx : Nat)
    (mean_rate : Rat) : Nat :=
  if mean_rate < perf_goal ∧ idx < n - 1 then
    idx + 1
  else if perf_goal * (1 + margin) < mean_rate ∧ 0 < idx then
    idx - 1
  else
    idx

/-- Modelled from the spec: the policy parameters of the controller (spec §3);
`margin` is the named hysteresis tunable of §9. -/
structure LoopParams where
  perf_goal : Rat
  margin : Rat
  period : Nat
  buffer_depth : Nat

/-- Modelled from the spec: one call of the native `poet_apply_control` loop
(spec §4.3, which lives in `libpoet`, not under `src/`): push the sample,
bump the counter, and at each epoch boundary run the policy; on a changed
index the actuator is invoked and its read-back (`report`, returning `none`
on a failed query, in which case the last index is retained per §7) is
adopted as the new `current_state_index`. -/
def native_apply_control_step (p : LoopParams)
    (report : Nat → Nat → Option Nat) (st : NativeLoopState)
    (rate power : Rat) : NativeLoopState :=
  let buf := pushSample p.buffer_depth st.buffer (rate, power)
  let cnt := st.count + 1
  if cnt % p.period = 0 then
    let j := next_state_index p.perf_goal p.margin st.n st.idx (meanRate buf)
    if j ≠ st.idx then
      let adopted :=
        match report j st.idx with
        | some r => r
        | none => st.idx
      { st with buffer := buf, count := cnt, idx := adopted }
    else
      { st with buffer := buf, count := cnt }
  else
    { st with buffer := buf, count := cnt }

/-- Modelled from the spec: a whole sequence of `apply_control` calls run
against the native loop state. -/
def native_run (p : LoopParams) (report : Nat → Nat → Option Nat)
    (st : NativeLoopState) (samples : List (Rat × Rat)) : NativeLoopState :=
  samples.foldl (fun s c => native_apply_control_step p report s c.1 c.2) st

/-! Helper lemmas about the embedded operations. -/

/-- Unfolding lemma for `POET.new`: the length check first, then a single
`poet_init` call on the record built by `POET.mkInitCall`. -/
theorem POET.new_unfold {A C : Type} (env : InitEnv A C) (pg : Rat)
    (cs : List poet_control_state_t) (ps : List poet_cpu_state_t)
    (af : Option A) (cf : Option C) (per bd : Nat) (log : Option String) :
    POET.new env pg cs ps af cf per bd log =
      if cs.length ≠ ps.length then
        (.error "Number of control and cpu states don\x27t match", [])
      else
        match env.poet_init (POET.mkInitCall env pg cs ps af cf per bd log) with
        | none => (.error "Failed to instantiate POET object",
                   [POET.mkInitCall env pg cs ps af cf per bd log])
        | some h => (.ok ⟨h, cs, ps⟩,
                     [POET.mkInitCall env pg cs ps af cf per bd log]) :=
  rfl

/-- Folding any list of calls through `apply_control` leaves the Rust-side
struct untouched. -/
theorem apply_control_seq_fixed (calls : List (Nat × Rat × Rat)) (s : POET) :
    POET.apply_control_seq s calls = s := by
  induction calls generalizing s with
  | nil => rfl
  | cons a t ih => exact ih s

/-- With a single-entry table the selection policy keeps index 0. -/
theorem next_state_index_single_state (g m mr : Rat) :
    next_state_index g m 1 0 mr = 0 := by
  simp [next_state_index]

/-- One native control-loop step preserves the table length, and with a
single-entry table it keeps the index at 0. -/
theorem native_step_single_state (p : LoopParams)
    (report : Nat → Nat → Option Nat) (st : NativeLoopState)
    (h1 : st.n = 1) (h0 : st.idx = 0) (rate power : Rat) :
    (native_apply_control_step p report st rate power).n = 1 ∧
    (native_apply_control_step p report st rate power).idx = 0 := by
  simp [native_apply_control_step, h1, h0, next_state_index_single_state,
    apply_ite NativeLoopState.n, apply_ite NativeLoopState.idx]

/-! Claim theorems. -/

/-- C4: the built-in default state pair is the single no-op state — the
default control state is `{id:0, speedup:1, cost:1}` and the default cpu
state is `{id:0, freq:0, cores:0}`. -/
theorem C4_default_states_values :
    default_poet_control_state_t.id = 0 ∧
    default_poet_control_state_t.speedup = 1 ∧
    default_poet_control_state_t.cost = 1 ∧
    default_poet_cpu_state_t.id = 0 ∧
    default_poet_cpu_state_t.freq = 0 ∧
    default_poet_cpu_state_t.cores = 0 :=
  ⟨rfl, rfl, rfl, rfl, rfl, rfl⟩

/-- C6: every sequence of `apply_control` calls returns unit and leaves the
Controller struct (its `control_states`, `cpu_states` and native handle
fields) unchanged; the only effect of one call is the single native
`poet_apply_control` invocation recorded in the trace. -/
theorem C6_apply_control_frame (self : POET) (calls : List (Nat × Rat × Rat))
    (tag : Nat) (window_rate window_power : Rat) :
    POET.apply_control_seq self calls = self ∧
    (self.apply_control tag window_rate window_power).1 = self ∧
    (self.apply_control tag window_rate window_power).2.1 = () ∧
    (self.apply_control tag window_rate window_power).2.2 =
      [⟨self.poet, tag, window_rate, window_power⟩] :=
  ⟨apply_control_seq_fixed calls self, rfl, rfl, rfl⟩

/-- C9: single-state stability — with a table of length `N = 1` and initial
index 0, any sequence of rate/power samples leaves `current_state_index` at
0; instantiating `samples` at every prefix of a call sequence gives the value
after every call. -/
theorem C9_single_state_stability (p : LoopParams)
    (report : Nat → Nat → Option Nat) (buffer : List (Rat × Rat))
    (count : Nat) (samples : List (Rat × Rat)) :
    (native_run p report ⟨1, 0, buffer, count⟩ samples).idx = 0 := by
  suffices h : ∀ (samples : List (Rat × Rat)) (st : NativeLoopState),
      st.n = 1 → st.idx = 0 →
      (native_run p report st samples).n = 1 ∧
      (native_run p report st samples).idx = 0 by
    exact (h samples ⟨1, 0, buffer, count⟩ rfl rfl).2
  intro samples
  induction samples with
  | nil => exact fun st h1 h0 => ⟨h1, h0⟩
  | cons s t ih =>
    intro st h1 h0
    have hs := native_step_single_state p report st h1 h0 s.1 s.2
    exact ih (native_apply_control_step p report st s.1 s.2) hs.1 hs.2

/-- C2: whenever the two table lengths differ, `POET::new` returns the
mismatched-table-length error and the trace of `poet_init` calls is empty, so
no native control-loop resource is ever allocated for a mismatch; when the
lengths are equal the length check passes and the initializer is invoked
(the trace is a singleton). -/
theorem C2_length_mismatch_no_native_init {A C : Type} (env : InitEnv A C)
    (pg : Rat) (cs : List poet_control_state_t)
    (ps : List poet_cpu_state_t) (af : Option A) (cf : Option C)
    (per bd : Nat) (log : Option String) :
    (cs.length ≠ ps.length →
      POET.new env pg cs ps af cf per bd log =
        (.error "Number of control and cpu states don\x27t match", [])) ∧
    (cs.length = ps.length →
      ∃ call, (POET.new env pg cs ps af cf per bd log).2 = [call]) := by
  rw [POET.new_unfold]
  constructor
  · intro h
    rw [if_pos h]
  · intro h
    rw [if_neg (by simp [h])]
    cases env.poet_init (POET.mkInitCall env pg cs ps af cf per bd log) <;>
      exact ⟨_, rfl⟩

/-- C2 witness: a concrete mismatched pair (lengths 1 and 0) yields the
mismatch error and an empty `poet_init` trace. -/
theorem C2_length_mismatch_no_native_init_witness :
    POET.new (⟨(), (), poet_init_spec⟩ : InitEnv Unit Unit) 100
        [default_poet_control_state_t] [] none none 1 1 none =
      (.error "Number of control and cpu states don\x27t match", []) :=
  (C2_length_mismatch_no_native_init ⟨(), (), poet_init_spec⟩ 100
    [default_poet_control_state_t] [] none none 1 1 none).1 (by decide)

/-- C3: when the length check passes, the `poet_init` call carries exactly
the caller-supplied callbacks, each defaulted to the built-in wrapper
(`apply_cpu_config_wrapper` / `get_current_cpu_state_wrapper`) when the
caller passed `None`. -/
theorem C3_callback_defaulting {A C : Type} (env : InitEnv A C) (pg : Rat)
    (cs : List poet_control_state_t) (ps : List poet_cpu_state_t)
    (af : Option A) (cf : Option C) (per bd : Nat) (log : Option String)
    (h : cs.length = ps.length) :
    ∃ call : InitCall A C,
      (POET.new env pg cs ps af cf per bd log).2 = [call] ∧
      (af = none → call.apply_func = env.apply_cpu_config_wrapper) ∧
      (∀ f, af = some f → call.apply_func = f) ∧
      (cf = none → call.curr_state_func = env.get_current_cpu_state_wrapper) ∧
      (∀ g, cf = some g → call.curr_state_func = g) := by
  refine ⟨POET.mkInitCall env pg cs ps af cf per bd log, ?_, ?_, ?_, ?_, ?_⟩
  · rw [POET.new_unfold, if_neg (by simp [h])]
    cases env.poet_init (POET.mkInitCall env pg cs ps af cf per bd log) <;> rfl
  · intro haf; simp [POET.mkInitCall, haf]
  · intro f haf; simp [POET.mkInitCall, haf]
  · intro hcf; simp [POET.mkInitCall, hcf]
  · intro g hcf; simp [POET.mkInitCall, hcf]

/-- C3 witness: with `apply_func = None` and `curr_state_func = Some 7`
against an environment whose built-in wrappers are `3` and `5`, the
initializer receives apply callback `3` and current-state callback `7`. -/
theorem C3_callback_defaulting_witness :
    ∃ call : InitCall Nat Nat,
      (POET.new (⟨3, 5, poet_init_spec⟩ : InitEnv Nat Nat) 100
          [default_poet_control_state_t] [default_poet_cpu_state_t]
          none (some 7) 1 1 none).2 = [call] ∧
      ((none : Option Nat) = none →
        call.apply_func =
          (⟨3, 5, poet_init_spec⟩ : InitEnv Nat Nat).apply_cpu_config_wrapper) ∧
      (∀ f, (none : Option Nat) = some f → call.apply_func = f) ∧
      ((some 7 : Option Nat) = none →
        call.curr_state_func =
          (⟨3, 5, poet_init_spec⟩ : InitEnv Nat Nat).get_current_cpu_state_wrapper) ∧
      (∀ g, (some 7 : Option Nat) = some g → call.curr_state_func = g) :=
  C3_callback_defaulting ⟨3, 5, poet_init_spec⟩ 100
    [default_poet_control_state_t] [default_poet_cpu_state_t]
    none (some 7) 1 1 none rfl

/-- C8: on successful construction the returned Controller holds exactly the
two input tables, element for element. -/
theorem C8_tables_moved_unchanged {A C : Type} (env : InitEnv A C) (pg : Rat)
    (cs : List poet_control_state_t) (ps : List poet_cpu_state_t)
    (af : Option A) (cf : Option C) (per bd : Nat) (log : Option String)
    (p : POET) (tr : List (InitCall A C))
    (h : POET.new env pg cs ps af cf per bd log = (.ok p, tr)) :
    p.control_states = cs ∧ p.cpu_states = ps := by
  rw [POET.new_unfold] at h
  by_cases hl : cs.length ≠ ps.length
  · rw [if_pos hl] at h
    injection h with h1 h2
    exact Except.noConfusion h1
  · rw [if_neg hl] at h
    cases henv : env.poet_init (POET.mkInitCall env pg cs ps af cf per bd log) with
    | none =>
      rw [henv] at h
      injection h with h1 h2
      exact Except.noConfusion h1
    | some hh =>
      rw [henv] at h
      injection h with h1 h2
      injection h1 with h1
      exact ⟨by rw [← h1], by rw [← h1]⟩

/-- C8 witness: constructing from the singleton default tables yields a
Controller whose stored tables equal those inputs. -/
theorem C8_tables_moved_unchanged_witness :
    (POET.mk 1 [default_poet_control_state_t]
        [default_poet_cpu_state_t]).control_states =
      [default_poet_control_state_t] ∧
    (POET.mk 1 [default_poet_control_state_t]
        [default_poet_cpu_state_t]).cpu_states =
      [default_poet_cpu_state_t] :=
  C8_tables_moved_unchanged (⟨(), (), poet_init_spec⟩ : InitEnv Unit Unit)
    100 [default_poet_control_state_t] [default_poet_cpu_state_t]
    none none 1 1 none
    (POET.mk 1 [default_poet_control_state_t] [default_poet_cpu_state_t])
    [POET.mkInitCall ⟨(), (), poet_init_spec⟩ 100
      [default_poet_control_state_t] [default_poet_cpu_state_t]
      none none 1 1 none]
    rfl

/-- C10: whenever the native loader reports status 0 with an `nstates`-element
array, the wrapper returns `Ok` with a copy of exactly that array (so of
length `nstates`) and frees the native allocation exactly once inside the
call; on any non-zero status it returns `Err` (and performs no free). -/
theorem C10_loader_success_shape
    (e1 : Option String → NativeLoadResult poet_control_state_t)
    (e2 : Option String → NativeLoadResult poet_cpu_state_t)
    (f1 f2 : Option String) :
    ((e1 f1).res = 0 →
      (poet_get_control_states e1 f1).1 = .ok (e1 f1).arr ∧
      (poet_get_control_states e1 f1).2 = 1) ∧
    ((e1 f1).res ≠ 0 →
      (poet_get_control_states e1 f1).1 =
        .error "Failed to load control states" ∧
      (poet_get_control_states e1 f1).2 = 0) ∧
    ((e2 f2).res = 0 →
      (poet_get_cpu_states e2 f2).1 = .ok (e2 f2).arr ∧
      (poet_get_cpu_states e2 f2).2 = 1) ∧
    ((e2 f2).res ≠ 0 →
      (poet_get_cpu_states e2 f2).1 = .error "Failed to load cpu states" ∧
      (poet_get_cpu_states e2 f2).2 = 0) := by
  refine ⟨fun h => ?_, fun h => ?_, fun h => ?_, fun h => ?_⟩ <;>
    simp [poet_get_control_states, poet_get_cpu_states, copy_nonoverlapping, h]

/-- C10 witness: a native loader answering status 0 with one default state
yields `Ok` of that singleton and one free; a loader answering status 1
yields the load error and no free. -/
theorem C10_loader_success_shape_witness :
    (poet_get_control_states
        (fun _ => ⟨0, [default_poet_control_state_t]⟩) none).1 =
      .ok [default_poet_control_state_t] ∧
    (poet_get_control_states
        (fun _ => ⟨0, [default_poet_control_state_t]⟩) none).2 = 1 ∧
    (poet_get_cpu_states (fun _ => ⟨1, []⟩) none).1 =
      .error "Failed to load cpu states" :=
  ⟨((C10_loader_success_shape (fun _ => ⟨0, [default_poet_control_state_t]⟩)
      (fun _ => ⟨1, []⟩) none none).1 rfl).1,
   ((C10_loader_success_shape (fun _ => ⟨0, [default_poet_control_state_t]⟩)
      (fun _ => ⟨1, []⟩) none none).1 rfl).2,
   ((C10_loader_success_shape (fun _ => ⟨0, [default_poet_control_state_t]⟩)
      (fun _ => ⟨1, []⟩) none none).2.2.2 (by decide)).1⟩

/-- C1 counterexample: with equal-length empty tables — a non-positive length,
for which the spec prescribes the mismatched-table-length error — and the
spec-modelled native initializer, `POET::new` passes its only check (length
equality) and fails with the generic initialization error instead. -/
theorem C1_construction_counterexample :
    (POET.new (⟨(), (), poet_init_spec⟩ : InitEnv Unit Unit) 100
        [] [] none none 1 1 none).1 =
      .error "Failed to instantiate POET object" ∧
    ("Failed to instantiate POET object" : String) ≠
      "Number of control and cpu states don\x27t match" :=
  ⟨rfl, by decide⟩

/-- C1 (amended): with the spec-modelled native initializer, construction
succeeds iff the tables have equal length, that length is positive, and
`period ≥ 1` and `buffer_depth ≥ 1`; the mismatched-table-length error is
returned exactly when the lengths differ (every other failure, including
equal-length empty tables, surfaces as the initialization error), and
construction is atomic — any returned Controller carries exactly the two
input tables. -/
theorem C1_construction_characterization {A C : Type} (aw : A) (cw : C)
    (pg : Rat) (cs : List poet_control_state_t)
    (ps : List poet_cpu_state_t) (af : Option A) (cf : Option C)
    (per bd : Nat) (log : Option String) (hcs : cs.length < 2 ^ 32) :
    ((∃ p, (POET.new (⟨aw, cw, poet_init_spec⟩ : InitEnv A C) pg cs ps
        af cf per bd log).1 = .ok p) ↔
      (cs.length = ps.length ∧ 1 ≤ cs.length ∧ 1 ≤ per ∧ 1 ≤ bd)) ∧
    ((POET.new (⟨aw, cw, poet_init_spec⟩ : InitEnv A C) pg cs ps
        af cf per bd log).1 =
        .error "Number of control and cpu states don\x27t match" ↔
      cs.length ≠ ps.length) ∧
    (∀ p, (POET.new (⟨aw, cw, poet_init_spec⟩ : InitEnv A C) pg cs ps
        af cf per bd log).1 = .ok p →
      p.control_states = cs ∧ p.cpu_states = ps) := by
  by_cases hl : cs.length = ps.length
  · by_cases hcond : 1 ≤ cs.length ∧ 1 ≤ per ∧ 1 ≤ bd
    · have hmod : cs.length % 4294967296 = cs.length :=
        Nat.mod_eq_of_lt (by simpa using hcs)
      have hres : (POET.new (⟨aw, cw, poet_init_spec⟩ : InitEnv A C) pg cs ps
          af cf per bd log).1 = .ok ⟨1, cs, ps⟩ := by
        rw [POET.new_unfold, if_neg (by simp [hl])]
        simp [poet_init_spec, POET.mkInitCall, hmod, hcond]
      rw [hres]
      refine ⟨⟨fun _ => ⟨hl, hcond.1, hcond.2.1, hcond.2.2⟩,
        fun _ => ⟨⟨1, cs, ps⟩, rfl⟩⟩,
        ⟨fun hco => Except.noConfusion hco, fun hne => absurd hl hne⟩,
        fun p hp => ?_⟩
      injection hp with hp
      exact ⟨by rw [← hp], by rw [← hp]⟩
    · have hmod : cs.length % 4294967296 = cs.length :=
        Nat.mod_eq_of_lt (by simpa using hcs)
      have hres : (POET.new (⟨aw, cw, poet_init_spec⟩ : InitEnv A C) pg cs ps
          af cf per bd log).1 = .error "Failed to instantiate POET object" := by
        rw [POET.new_unfold, if_neg (by simp [hl])]
        simp [poet_init_spec, POET.mkInitCall, hmod, hcond]
      rw [hres]
      exact ⟨⟨fun hco => Except.noConfusion hco.choose_spec,
        fun hr => absurd hr.2 hcond⟩,
        ⟨fun hco => absurd (Except.error.inj hco) (by decide),
        fun hne => absurd hl hne⟩,
        fun p hp => Except.noConfusion hp⟩
  · have hres : (POET.new (⟨aw, cw, poet_init_spec⟩ : InitEnv A C) pg cs ps
        af cf per bd log).1 =
        .error "Number of control and cpu states don\x27t match" := by
      rw [POET.new_unfold, if_pos hl]
    rw [hres]
    exact ⟨⟨fun hco => Except.noConfusion hco.choose_spec,
      fun hr => absurd hr.1 hl⟩,
      ⟨fun _ => hl, fun _ => rfl⟩,
      fun p hp => Except.noConfusion hp⟩

/-- C1 witness: the singleton default tables with `period = buffer_depth = 1`
construct successfully. -/
theorem C1_construction_characterization_witness :
    ∃ p, (POET.new (⟨(), (), poet_init_spec⟩ : InitEnv Unit Unit) 100
        [default_poet_control_state_t] [default_poet_cpu_state_t]
        none none 1 1 none).1 = .ok p :=
  (C1_construction_characterization () () 100 [default_poet_control_state_t]
    [default_poet_cpu_state_t] none none 1 1 none (by decide)).1.mpr
    (by decide)

/-- C5 counterexample: two sources whose tables disagree in length (1 vs 2)
load with no error at all — neither loader reports any count-mismatch error,
contradicting the claim that a length disagreement is reported by the loader
with a distinct `CountMismatchError`. -/
theorem C5_loader_counterexample :
    (poet_get_control_states
        (fun _ => ⟨0, [default_poet_control_state_t]⟩) none).1 =
      .ok [default_poet_control_state_t] ∧
    (poet_get_cpu_states
        (fun _ => ⟨0, [default_poet_cpu_state_t, default_poet_cpu_state_t]⟩)
        none).1 =
      .ok [default_poet_cpu_state_t, default_poet_cpu_state_t] ∧
    [default_poet_control_state_t].length ≠
      [default_poet_cpu_state_t, default_poet_cpu_state_t].length :=
  ⟨rfl, rfl, by decide⟩

/-- C5 (amended): each loader reports every native failure (malformed input
included) with that loader's single fixed error string and never compares
the two table lengths; a length disagreement is surfaced only at
construction, by `POET::new`, with a mismatch error string distinct from
both loader error strings. -/
theorem C5_loader_single_error_characterization {A C : Type}
    (e1 : Option String → NativeLoadResult poet_control_state_t)
    (e2 : Option String → NativeLoadResult poet_cpu_state_t)
    (f1 f2 : Option String) (env : InitEnv A C) (pg : Rat)
    (cs : List poet_control_state_t) (ps : List poet_cpu_state_t)
    (af : Option A) (cf : Option C) (per bd : Nat) (log : Option String)
    (h1 : (e1 f1).res ≠ 0) (h2 : (e2 f2).res ≠ 0)
    (h3 : cs.length ≠ ps.length) :
    (poet_get_control_states e1 f1).1 =
      .error "Failed to load control states" ∧
    (poet_get_cpu_states e2 f2).1 = .error "Failed to load cpu states" ∧
    (POET.new env pg cs ps af cf per bd log).1 =
      .error "Number of control and cpu states don\x27t match" ∧
    ("Number of control and cpu states don\x27t match" : String) ≠
      "Failed to load control states" ∧
    ("Number of control and cpu states don\x27t match" : String) ≠
      "Failed to load cpu states" := by
  refine ⟨?_, ?_, ?_, by decide, by decide⟩
  · simp [poet_get_control_states, h1]
  · simp [poet_get_cpu_states, h2]
  · rw [POET.new_unfold, if_pos h3]

/-- C5 witness: concrete failing loaders and a concrete mismatched pair
exhibit the three distinct error strings. -/
theorem C5_loader_single_error_characterization_witness :
    (poet_get_control_states (fun _ => ⟨1, []⟩) none).1 =
      .error "Failed to load control states" ∧
    (poet_get_cpu_states (fun _ => ⟨1, []⟩) none).1 =
      .error "Failed to load cpu states" ∧
    (POET.new (⟨(), (), poet_init_spec⟩ : InitEnv Unit Unit) 100
        [default_poet_control_state_t] [] none none 1 1 none).1 =
      .error "Number of control and cpu states don\x27t match" ∧
    ("Number of control and cpu states don\x27t match" : String) ≠
      "Failed to load control states" ∧
    ("Number of control and cpu states don\x27t match" : String) ≠
      "Failed to load cpu states" :=
  C5_loader_single_error_characterization (fun _ => ⟨1, []⟩)
    (fun _ => ⟨1, []⟩) none none ⟨(), (), poet_init_spec⟩ 100
    [default_poet_control_state_t] [] none none 1 1 none
    (by decide) (by decide) (by decide)

/-- C7: dropping a Controller performs exactly one native `poet_destroy`
call, on exactly the handle obtained from the `poet_init` call made at
construction, and returns unit — no error can be surfaced. -/
theorem C7_drop_single_destroy {A C : Type} (env : InitEnv A C) (pg : Rat)
    (cs : List poet_control_state_t) (ps : List poet_cpu_state_t)
    (af : Option A) (cf : Option C) (per bd : Nat) (log : Option String)
    (p : POET) (tr : List (InitCall A C))
    (h : POET.new env pg cs ps af cf per bd log = (.ok p, tr)) :
    (POET.drop p).1 = () ∧ (POET.drop p).2 = [⟨p.poet⟩] ∧
    ∃ call, tr = [call] ∧ env.poet_init call = some p.poet := by
  refine ⟨rfl, rfl, ?_⟩
  rw [POET.new_unfold] at h
  by_cases hl : cs.length ≠ ps.length
  · rw [if_pos hl] at h
    injection h with h1 h2
    exact Except.noConfusion h1
  · rw [if_neg hl] at h
    cases henv : env.poet_init (POET.mkInitCall env pg cs ps af cf per bd log) with
    | none =>
      rw [henv] at h
      injection h with h1 h2
      exact Except.noConfusion h1
    | some hh =>
      rw [henv] at h
      injection h with h1 h2
      injection h1 with h1
      exact ⟨POET.mkInitCall env pg cs ps af cf per bd log, h2.symm,
        by rw [henv, ← h1]⟩

/-- C7 witness: a Controller built from the singleton default tables is
destroyed with exactly one `poet_destroy` on handle 1, the handle returned
by the construction-time `poet_init`. -/
theorem C7_drop_single_destroy_witness :
    (POET.drop ⟨1, [default_poet_control_state_t],
        [default_poet_cpu_state_t]⟩).1 = () ∧
    (POET.drop ⟨1, [default_poet_control_state_t],
        [default_poet_cpu_state_t]⟩).2 = [⟨1⟩] ∧
    ∃ call : InitCall Unit Unit,
      [POET.mkInitCall (⟨(), (), poet_init_spec⟩ : InitEnv Unit Unit) 100
          [default_poet_control_state_t] [default_poet_cpu_state_t]
          none none 1 1 none] = [call] ∧
      (⟨(), (), poet_init_spec⟩ : InitEnv Unit Unit).poet_init call =
        some 1 :=
  C7_drop_single_destroy ⟨(), (), poet_init_spec⟩ 100
    [default_poet_control_state_t] [default_poet_cpu_state_t]
    none none 1 1 none
    ⟨1, [default_poet_control_state_t], [default_poet_cpu_state_t]⟩
    [POET.mkInitCall ⟨(), (), poet_init_spec⟩ 100
      [default_poet_control_state_t] [default_poet_cpu_state_t]
      none none 1 1 none]
    rfl

end PoetRust
